import Mathlib

/-!
Shallow embedding of the monitoring/collection engine of the Scct_News
repository (src/monitor.py, src/url_utils.py, src/models.py and the
scrapers package), together with proofs about the embedded operations.

Conventions of the embedding:
* Python `str` becomes `String`, `Optional[str]` becomes `Option String`.
* Python truthiness of an optional string (`if uf:`) is `optTruthy`.
* Wall-clock fields (`published_at`, `created_at`) are omitted: no claim
  touches them and real time is outside the embedding.
* The database session is explicit state: a list of stored `News` rows.
  A commit either succeeds, raises a uniqueness violation (URL already
  stored), or raises some other persistence error; the latter is modelled
  by a caller-supplied fault oracle, since it originates outside the code.
* Network fetching and HTML parsing are modelled as oracles
  (`FetchOutcome`, a `parse` function): their outputs are exactly the
  inputs the extraction loops consume.
-/

namespace Scct

/-- Python truthiness of an optional string: `None` and `""` are falsy. -/
def optTruthy : Option String → Bool
  | none => false
  | some s => s != ""

/-- Containment of `sub` as a contiguous run inside `hay` (character lists).
Model of the Python substring operator `sub in hay`; the empty pattern is
contained in everything, as in Python. -/
def charsContain (sub : List Char) : List Char → Bool
  | [] => sub.isEmpty
  | c :: t => sub.isPrefixOf (c :: t) || charsContain sub t

/-- Model of the Python expression `sub in hay` on strings. -/
def pyIn (sub hay : String) : Bool := charsContain sub.data hay.data

/-- Model of Python `s.lower()` (character-wise lowercasing; the inputs of
this codebase are handled identically by Python and `Char.toLower`). -/
def strLower (s : String) : String := ⟨s.data.map Char.toLower⟩

/-- Model of Python `s.upper()` (character-wise uppercasing). -/
def strUpper (s : String) : String := ⟨s.data.map Char.toUpper⟩

/-- Model of Python `s.strip()`: remove leading and trailing whitespace. -/
def pyTrim (s : String) : String :=
  ⟨((s.data.dropWhile Char.isWhitespace).reverse.dropWhile Char.isWhitespace).reverse⟩

/-- Model of Python `s.startswith(pre)`. -/
def pyStartsWith (s pre : String) : Bool := pre.data.isPrefixOf s.data

/-- Model of Python `s.strip("/")` (single strip character `c`): removes
every leading and trailing occurrence of `c`. -/
def pyStrip (c : Char) (s : String) : String :=
  ⟨((s.data.dropWhile (fun x => x = c)).reverse.dropWhile (fun x => x = c)).reverse⟩

/-- Model of Python `s.rstrip("/")`: removes trailing occurrences of `c`. -/
def pyRstrip (c : Char) (s : String) : String :=
  ⟨(s.data.reverse.dropWhile (fun x => x = c)).reverse⟩

/-- Suffix of the character list after the first occurrence of the marker
`m`, or `none` when `m` does not occur. Used to model how
`urllib.parse.urlparse` splits a `scheme://netloc/path` URL at `"://"`. -/
def afterFirstMarker (m : List Char) : List Char → Option (List Char)
  | [] => none
  | c :: t =>
    if m.isPrefixOf (c :: t) then some ((c :: t).drop m.length)
    else afterFirstMarker m t

/-- Model of `urllib.parse.urlparse(url).path`, restricted to the
`scheme://netloc/path` shape the repository feeds it (queries and
fragments out of modelled scope): everything after `"://"` up to the first
`/` is the netloc, the rest (leading slash included) is the path; a URL
without `"://"` is all path, as urlparse treats scheme-less input. -/
def url_path (url : String) : String :=
  match afterFirstMarker "://".data url.data with
  | none => url
  | some rest => ⟨rest.dropWhile (fun c => c ≠ '/')⟩

-- ---------------------------------------------------------------------
-- url_utils.py
-- ---------------------------------------------------------------------

/-- `urlparse(url).path.strip("/")`, shared by `infer_uf_from_url` and the
statements about it. -/
def strippedPath (url : String) : String := pyStrip '/' (url_path url)

/-- First segment of the stripped URL path: `path.split("/")[0]`, i.e. the
maximal run of characters before the first `/`. -/
def first_path_segment (url : String) : String :=
  ⟨(strippedPath url).data.takeWhile (fun c => c ≠ '/')⟩

/-- Embedding of `url_utils.infer_uf_from_url`: strip the URL path; if it
is empty return `None`; otherwise take the first path segment
(`path.split("/")[0]`) and, when it has exactly two characters, return it
uppercased, else `None`. -/
def infer_uf_from_url (url : String) : Option String :=
  let path := strippedPath url
  if path = "" then none
  else
    let first : String := ⟨path.data.takeWhile (fun c => c ≠ '/')⟩
    if first.length = 2 then some (strUpper first) else none

-- ---------------------------------------------------------------------
-- models.py (persisted rows) and scrapers/base_scraper.py (NewsItem)
-- ---------------------------------------------------------------------

/-- Candidate item produced by an extractor (dataclass `NewsItem` in
`scrapers/base_scraper.py`); the wall-clock `published_at` field is
omitted from the embedding. -/
structure NewsItem where
  title : String
  url : String
  source : String
  summary : Option String := none
  city : Option String := none
  uf : Option String := none
  category : Option String := none
deriving DecidableEq, Repr

/-- Stored article row (`News` in models.py) minus the wall-clock
timestamp columns; `url` is the unique identity enforced by the schema. -/
structure News where
  title : String
  url : String
  summary : Option String
  source : String
  city : Option String
  uf : Option String
  category : Option String
deriving DecidableEq, Repr

/-- Monitored source row (`MonitoredURL` in models.py), as seen by the
core: the orchestrator only ever reads active rows, so the activity flag
and timestamps are not carried. -/
structure MonitoredURL where
  url : String
  media : String
  uf : Option String := none
  city : Option String := none
deriving DecidableEq, Repr

/-- Keyword row is just its term; the filter receives the active terms. -/
abbrev KeywordTerm := String

/-- One concrete fetch target `(media, url, uf, city)` produced by target
expansion (a plain tuple in monitor.py). -/
structure FetchTarget where
  media : String
  url : String
  uf : Option String
  city : Option String
deriving DecidableEq, Repr

-- ---------------------------------------------------------------------
-- monitor.py: keyword filter
-- ---------------------------------------------------------------------

/-- The haystack built for a candidate at monitor.py line 67:
`((item.title or "") + " " + (item.summary or "")).lower()`; `title` is a
non-optional string, so `title or ""` is `title` (with `""` mapping to
`""` either way). -/
def keywordHaystack (item : NewsItem) : String :=
  strLower (item.title ++ " " ++ (item.summary.getD ""))

/-- `any(kw in haystack for kw in lowered_keywords)` for one item. -/
def matchesAnyKeyword (lowered : List String) (item : NewsItem) : Bool :=
  lowered.any (fun kw => pyIn kw (keywordHaystack item))

/-- The accumulation loop of `_filter_by_keywords` (monitor.py 64-71). -/
def filter_by_keywords_loop (lowered : List String) : List NewsItem → List NewsItem
  | [] => []
  | item :: rest =>
    if matchesAnyKeyword lowered item then item :: filter_by_keywords_loop lowered rest
    else filter_by_keywords_loop lowered rest

/-- Embedding of `_filter_by_keywords` (monitor.py 54-71): with no active
keyword the input comes back unchanged; otherwise keywords are lowercased
and each item is kept when some lowered keyword occurs in its haystack. -/
def filter_by_keywords (items : List NewsItem) (keywords : List String) : List NewsItem :=
  if keywords.isEmpty then items
  else filter_by_keywords_loop (keywords.map strLower) items

-- ---------------------------------------------------------------------
-- monitor.py: target expansion
-- ---------------------------------------------------------------------

/-- The 27 Brazilian federative-unit codes (monitor.py `UF_CODES`). -/
def UF_CODES : List String :=
  ["AC", "AL", "AP", "AM", "BA", "CE", "DF", "ES", "GO",
   "MA", "MT", "MS", "MG", "PA", "PB", "PR", "PE", "PI",
   "RJ", "RN", "RS", "RO", "RR", "SC", "SP", "SE", "TO"]

/-- The membership test `media in ("G1", "CNN Brasil", "R7")` at
monitor.py line 96: the national, region-enumerable portals. -/
def isNationalMedia (media : String) : Bool :=
  media == "G1" || media == "CNN Brasil" || media == "R7"

/-- Embedding of `_expand_targets_for_monitored` (monitor.py 76-110). -/
def expand_targets_for_monitored (m : MonitoredURL) : List FetchTarget :=
  if isNationalMedia m.media then
    if optTruthy m.uf then [⟨m.media, m.url, m.uf, m.city⟩]
    else UF_CODES.map (fun code => ⟨m.media, m.url, some code, m.city⟩)
  else
    [⟨m.media, m.url, if optTruthy m.uf then m.uf else infer_uf_from_url m.url, m.city⟩]

-- ---------------------------------------------------------------------
-- monitor.py: persistence (save_news_items)
-- ---------------------------------------------------------------------

/-- The default-value guard at monitor.py 138-139:
`default if default not in ("", "None") else None` (a `None` default
passes the guard and stays `None`). -/
def defaultEff : Option String → Option String
  | none => none
  | some s => if s = "" || s = "None" then none else some s

/-- Python `v or d` on optional strings: `v` when truthy, else `d`. -/
def pyOrOpt (v d : Option String) : Option String :=
  if optTruthy v then v else d

/-- The `News(...)` row constructed for a candidate (monitor.py 132-142). -/
def newsOfItem (item : NewsItem) (default_city default_uf : Option String) : News :=
  { title := item.title
    url := item.url
    summary := item.summary
    source := item.source
    city := pyOrOpt item.city (defaultEff default_city)
    uf := pyOrOpt item.uf (defaultEff default_uf)
    category := item.category }

/-- Whether the store already holds a row with this URL — the condition
under which the schema's UNIQUE(url) constraint makes the commit raise
`IntegrityError`. -/
def dbHasUrl (db : List News) (u : String) : Bool :=
  db.any (fun n => n.url == u)

/-- Embedding of `save_news_items` (monitor.py 115-158). The state is the
list of committed rows; `fault` is the oracle for persistence errors other
than the uniqueness violation (unexpected backend failures). Per item:
an empty URL is skipped; a duplicate URL raises `IntegrityError`, which is
rolled back and swallowed (loop continues); any other error is rolled
back and re-raised, ending the loop. Returns the committed rows and
whether an exception propagated to the caller. -/
def save_news_items (fault : NewsItem → Bool) (items : List NewsItem)
    (default_city default_uf : Option String) (db : List News) : List News × Bool :=
  match items with
  | [] => (db, false)
  | item :: rest =>
    if item.url = "" then save_news_items fault rest default_city default_uf db
    else if dbHasUrl db item.url then
      save_news_items fault rest default_city default_uf db
    else if fault item then (db, true)
    else
      save_news_items fault rest default_city default_uf
        (db ++ [newsOfItem item default_city default_uf])

/-- Number of stored rows carrying URL `u`. -/
def dbUrlCount (db : List News) (u : String) : Nat :=
  db.countP (fun n => n.url == u)

-- ---------------------------------------------------------------------
-- scrapers/playwright_client.py
-- ---------------------------------------------------------------------

/-- Outcome of one page navigation, the oracle input to `get_page_html`:
a successful render with the resulting HTML, a Playwright timeout, a
Playwright transport error, or an unexpected exception raised outside the
guarded `page.goto` region (e.g. browser launch failure). -/
inductive FetchOutcome where
  | ok (html : String)
  | timeoutErr
  | transportErr
  | raisesOther
deriving DecidableEq, Repr

/-- Embedding of `get_page_html` (playwright_client.py 66-107): Playwright
timeout/transport errors around navigation are caught, logged and turned
into the empty string; an unexpected exception propagates (`Except.error`).
The best-effort popup handler and the wait-for-selector timeout are
swallowed inside the function and so do not alter the returned value's
shape, which is the rendered page content. -/
def get_page_html : FetchOutcome → Except String String
  | .ok html => .ok html
  | .timeoutErr => .ok ""
  | .transportErr => .ok ""
  | .raisesOther => .error "unexpected playwright failure"

-- ---------------------------------------------------------------------
-- scrapers/g1_scraper.py
-- ---------------------------------------------------------------------

/-- The `a.feed-post-link` tag inside a G1 feed card: its `href` attribute
(possibly absent) and its stripped text (the title). -/
structure G1Link where
  href : Option String
  text : String
deriving DecidableEq, Repr

/-- One `div.feed-post-body` card as the parser hands it to the extraction
loop: optional link tag and optional stripped summary text. -/
structure G1Card where
  linkTag : Option G1Link
  summary : Option String
deriving DecidableEq, Repr

/-- The card loop of `G1Scraper.fetch_from_url` (g1_scraper.py 83-119):
cards without link tag or href are skipped; empty and already-seen URLs
are skipped; the URL is marked seen before the title check; cards with an
empty title are skipped; otherwise the item is appended and the loop
breaks once `limit` items have been collected. -/
def g1_collect (uf : Option String) (limit : Nat) :
    List G1Card → List String → List NewsItem → List NewsItem
  | [], _, items => items
  | card :: rest, seen, items =>
    match card.linkTag with
    | none => g1_collect uf limit rest seen items
    | some lt =>
      match lt.href with
      | none => g1_collect uf limit rest seen items
      | some link =>
        if link = "" || seen.contains link then g1_collect uf limit rest seen items
        else
          let seen' := link :: seen
          if lt.text = "" then g1_collect uf limit rest seen' items
          else
            let items' := items ++
              [{ title := lt.text, url := link, source := "G1",
                 summary := card.summary, uf := uf : NewsItem }]
            if limit ≤ items'.length then items' else g1_collect uf limit rest seen' items'

/-- The URL rewrite at g1_scraper.py 62-65: with a truthy `uf` and the bare
base domain as URL, redirect to the per-state page `base/uf.lower()`. -/
def g1_effective_url (url : String) (uf : Option String) : String :=
  if optTruthy uf then
    if pyRstrip '/' url = "https://g1.globo.com" then
      "https://g1.globo.com" ++ "/" ++ strLower (uf.getD "")
    else url
  else url

/-- Embedding of `G1Scraper.fetch_from_url` (g1_scraper.py 57-122): the
network is the oracle `net` (outcome per URL), the HTML parser the oracle
`parse` (cards per HTML document). An exception out of `get_page_html` is
caught and yields `[]`; otherwise the card loop runs on the parsed cards.
The result is `Except.ok` exactly when no exception reaches the caller. -/
def g1_fetch_from_url (net : String → FetchOutcome) (parse : String → List G1Card)
    (url : String) (uf : Option String) (limit : Nat := 100) :
    Except String (List NewsItem) :=
  let u := g1_effective_url url uf
  match get_page_html (net u) with
  | .error _ => .ok []
  | .ok html => .ok (g1_collect uf limit (parse html) [] [])

-- ---------------------------------------------------------------------
-- scrapers/r7_scraper.py
-- ---------------------------------------------------------------------

/-- An `<a>` element with an `href` attribute (as found by
`node.find("a", href=True)` or the node itself): href value, optional
`title` attribute, stripped text. -/
structure R7Anchor where
  href : String
  titleAttr : Option String
  text : String
deriving DecidableEq, Repr

/-- One `[data-tb-title]` node: the resolved anchor (the node itself when
it is an `<a href=...>`, else its first descendant anchor, else none),
the node's own optional `title` attribute and stripped text. -/
structure R7Node where
  anchor : Option R7Anchor
  titleAttr : Option String
  text : String
deriving DecidableEq, Repr

/-- Embedding of `R7Scraper._normalize_url` (r7_scraper.py 51-62): strip
whitespace; empty stays empty; a root-relative URL is joined onto the base
domain; anything else is returned as is. -/
def r7_normalize_url (href : String) : String :=
  let h := pyTrim href
  if h = "" then ""
  else if pyStartsWith h "/" then "https://noticias.r7.com" ++ h
  else h

/-- A Python `or`-chain over optional strings, returning the first truthy
operand and `""` when all are falsy — the title fallback chain of
r7_scraper.py 126-131. -/
def pyOrChain : List (Option String) → String
  | [] => ""
  | none :: rest => pyOrChain rest
  | some s :: rest => if s = "" then pyOrChain rest else s

/-- The node loop of `R7Scraper.fetch_from_url` (r7_scraper.py 104-154):
nodes without an anchor are skipped; the href is normalized and must be
non-empty, contain `noticias.r7.com` and be unseen; the title is the first
truthy of the anchor's `title` attribute, the node's `title` attribute,
the anchor text and the node text, must be non-empty and, stripped, at
least 8 characters; then the URL is marked seen, the item appended and the
loop breaks once `limit` items have been collected. -/
def r7_collect (uf : Option String) (limit : Nat) :
    List R7Node → List String → List NewsItem → List NewsItem
  | [], _, items => items
  | node :: rest, seen, items =>
    match node.anchor with
    | none => r7_collect uf limit rest seen items
    | some a =>
      let href := r7_normalize_url a.href
      if href = "" then r7_collect uf limit rest seen items
      else if !(pyIn "noticias.r7.com" href) then r7_collect uf limit rest seen items
      else if seen.contains href then r7_collect uf limit rest seen items
      else
        let title := pyOrChain [a.titleAttr, node.titleAttr, some a.text, some node.text]
        if title = "" then r7_collect uf limit rest seen items
        else
          let title' := pyTrim title
          if title'.length < 8 then r7_collect uf limit rest seen items
          else
            let seen' := href :: seen
            let items' := items ++
              [{ title := title', url := href, source := "R7", uf := uf : NewsItem }]
            if limit ≤ items'.length then items' else r7_collect uf limit rest seen' items'

-- ---------------------------------------------------------------------
-- scrapers/cnn_scraper.py
-- ---------------------------------------------------------------------

/-- One anchor from `select("a[href^='https://www.cnnbrasil.com.br/']")`:
href attribute (rechecked by the loop) and stripped text. -/
structure CNNAnchor where
  href : Option String
  text : String
deriving DecidableEq, Repr

/-- The anchor loop of `CNNScraper.fetch_from_url` (cnn_scraper.py 46-72):
missing, empty or already-seen hrefs are skipped; empty titles and titles
shorter than 20 characters are skipped; then the URL is marked seen, the
item appended and the loop breaks once `limit` items are collected. -/
def cnn_collect (uf : Option String) (limit : Nat) :
    List CNNAnchor → List String → List NewsItem → List NewsItem
  | [], _, items => items
  | a :: rest, seen, items =>
    match a.href with
    | none => cnn_collect uf limit rest seen items
    | some href =>
      if href = "" || seen.contains href then cnn_collect uf limit rest seen items
      else
        if a.text = "" then cnn_collect uf limit rest seen items
        else if a.text.length < 20 then cnn_collect uf limit rest seen items
        else
          let seen' := href :: seen
          let items' := items ++
            [{ title := a.text, url := href, source := "CNN Brasil", uf := uf : NewsItem }]
          if limit ≤ items'.length then items' else cnn_collect uf limit rest seen' items'

-- ---------------------------------------------------------------------
-- monitor.py: per-target run and monitoring cycle
-- ---------------------------------------------------------------------

/-- The media names registered in `SCRAPER_CLASSES` by the automatic
discovery of the three scraper modules. -/
def SCRAPER_MEDIA : List String := ["G1", "CNN Brasil", "R7"]

/-- Outcome of `scraper.fetch_from_url` for one target, as an oracle: the
returned candidate list, or an exception out of the scraper pipeline. -/
inductive TargetOutcome where
  | items (l : List NewsItem)
  | raises
deriving Repr

/-- Embedding of `_run_scraper_target` (monitor.py 163-210) acting on the
store: unknown media is logged and skipped; an exception from the fetch,
or re-raised out of `save_news_items`, is caught by the function's own
`except` (line 203) and leaves only the rows committed before it; else
the fetched items are keyword-filtered and saved with the target's city
and uf as defaults. Never raises to its caller. -/
def run_scraper_target (fetch : FetchTarget → TargetOutcome) (fault : NewsItem → Bool)
    (keywords : List String) (t : FetchTarget) (db : List News) : List News :=
  if !(SCRAPER_MEDIA.contains t.media) then db
  else
    match fetch t with
    | .raises => db
    | .items l => (save_news_items fault (filter_by_keywords l keywords) t.city t.uf db).fst

/-- Observable outcome of one monitoring cycle: the stored rows, whether
the export sink was invoked, and whether an exception escaped the cycle. -/
structure CycleResult where
  db : List News
  exportInvoked : Bool
  raised : Bool
deriving Repr

/-- Embedding of `run_monitor_cycle` (monitor.py 215-280) over the loaded
snapshot of active sources and keywords. With no active monitored source
the cycle logs a warning and returns before expanding targets or
exporting. Otherwise every source is expanded, every target is run (the
worker pool joined by `as_completed` is modelled sequentially — each
target is isolated and the claims proved here do not depend on
interleaving), and finally the CSV export runs inside `try/except`:
whether or not the export fails (`exportFails`), the failure is only
logged, so the cycle records the export as invoked and never raises. -/
def run_monitor_cycle (monitored : List MonitoredURL) (keywords : List String)
    (fetch : FetchTarget → TargetOutcome) (fault : NewsItem → Bool)
    (exportFails : Bool) (db : List News) : CycleResult :=
  if monitored.isEmpty then ⟨db, false, false⟩
  else
    let targets := monitored.foldl (fun acc m => acc ++ expand_targets_for_monitored m) []
    let db' := targets.foldl (fun d t => run_scraper_target fetch fault keywords t d) db
    ⟨db', true, false⟩

-- ---------------------------------------------------------------------
-- Helper lemmas
-- ---------------------------------------------------------------------

/-- The filter accumulation loop is `List.filter` by the match predicate. -/
theorem filter_by_keywords_loop_eq_filter (lowered : List String) (items : List NewsItem) :
    filter_by_keywords_loop lowered items = items.filter (matchesAnyKeyword lowered) := by
  induction items with
  | nil => rfl
  | cons i rest ih =>
    simp only [filter_by_keywords_loop, List.filter_cons]
    cases h : matchesAnyKeyword lowered i <;> simp [h, ih]

/-- A URL with a positive stored count is found by the duplicate check. -/
theorem dbHasUrl_of_count (db : List News) (u : String) (h : 1 ≤ dbUrlCount db u) :
    dbHasUrl db u = true := by
  unfold dbUrlCount at h
  obtain ⟨n, hn, hp⟩ := List.countP_pos_iff.mp (Nat.lt_of_lt_of_le Nat.zero_lt_one h)
  exact List.any_eq_true.mpr ⟨n, hn, hp⟩

/-- Once a URL is stored, a whole `save_news_items` run neither removes
nor duplicates it: its row count is preserved (inserts only happen for
URLs the duplicate check does not find). -/
theorem save_news_items_count_preserved (fault : NewsItem → Bool) (items : List NewsItem)
    (dc du : Option String) :
    ∀ (db : List News) (u : String), 1 ≤ dbUrlCount db u →
      dbUrlCount (save_news_items fault items dc du db).fst u = dbUrlCount db u := by
  induction items with
  | nil => intro db u _; rfl
  | cons item rest ih =>
    intro db u h
    by_cases h1 : item.url = ""
    · simpa [save_news_items, h1] using ih db u h
    · by_cases h2 : dbHasUrl db item.url = true
      · simpa [save_news_items, h1, h2] using ih db u h
      · by_cases h3 : fault item = true
        · simp [save_news_items, h1, h2, h3]
        · have hne : ¬ (item.url = u) := by
            intro he
            exact h2 (he ▸ dbHasUrl_of_count db u h)
          have hcnt : dbUrlCount (db ++ [newsOfItem item dc du]) u = dbUrlCount db u := by
            simp [dbUrlCount, List.countP_append, List.countP_cons, newsOfItem, hne]
          have hrec := ih (db ++ [newsOfItem item dc du]) u (by rw [hcnt]; exact h)
          simpa [save_news_items, h1, h2, h3, hcnt] using hrec

-- ---------------------------------------------------------------------
-- C1
-- ---------------------------------------------------------------------

/-- C1: a candidate whose URL already identifies a stored article is a
no-op for `save_news_items`: processing it equals skipping it (the
uniqueness violation is rolled back and swallowed, the loop continues
with the rest of the batch), and after the remaining batch exactly one
stored row with that URL remains. -/
theorem save_news_items_duplicate_url_noop (fault : NewsItem → Bool) (c : NewsItem)
    (rest : List NewsItem) (dc du : Option String) (db : List News)
    (hne : c.url ≠ "") (hdup : dbUrlCount db c.url = 1) :
    save_news_items fault (c :: rest) dc du db = save_news_items fault rest dc du db ∧
    dbUrlCount (save_news_items fault rest dc du db).fst c.url = 1 := by
  have hhas : dbHasUrl db c.url = true := dbHasUrl_of_count db c.url (by omega)
  refine ⟨by simp [save_news_items, hne, hhas], ?_⟩
  rw [save_news_items_count_preserved fault rest dc du db c.url (by omega), hdup]

def c1Item : NewsItem := { title := "t", url := "https://news.example/one", source := "s" }

def c1Row : News := newsOfItem c1Item none none

theorem save_news_items_duplicate_url_noop_witness :
    (c1Item.url ≠ "" ∧ dbUrlCount [c1Row] c1Item.url = 1) ∧
    (save_news_items (fun _ => false) [c1Item] none none [c1Row] =
       save_news_items (fun _ => false) [] none none [c1Row] ∧
     dbUrlCount (save_news_items (fun _ => false) [] none none [c1Row]).fst c1Item.url = 1) :=
  ⟨⟨by decide, by decide⟩,
   save_news_items_duplicate_url_noop (fun _ => false) c1Item [] none none [c1Row]
     (by decide) (by decide)⟩

-- ---------------------------------------------------------------------
-- C2
-- ---------------------------------------------------------------------

def c2Item : NewsItem := { title := "ab", url := "https://news.example/two", source := "s",
                           summary := some "cd" }

/-- C2 (counterexample): the filter does not keep a candidate exactly when
the lowercase plain concatenation of title and summary contains a
keyword. For title `"ab"`, summary `"cd"` and keyword `"bc"`, the
concatenation `"abcd"` contains `"bc"`, yet the filter drops the
candidate, because the code builds its haystack with a space between
title and summary (`"ab cd"`). -/
theorem filter_plain_concat_counterexample :
    filter_by_keywords [c2Item] ["bc"] = [] ∧
    pyIn (strLower "bc") (strLower ("ab" ++ "cd")) = true := by decide

/-- C2 (amended): for a non-empty keyword list, a candidate is kept iff
the lowercase of `title ++ " " ++ summary` (title and summary joined by a
single space, a missing summary read as empty) contains some lowercased
keyword as a substring. -/
theorem filter_by_keywords_mem_iff (items : List NewsItem) (keywords : List String)
    (c : NewsItem) (hk : keywords ≠ []) :
    c ∈ filter_by_keywords items keywords ↔
      c ∈ items ∧
      ((keywords.map strLower).any
        (fun kw => pyIn kw (strLower (c.title ++ " " ++ c.summary.getD "")))) = true := by
  have hne : keywords.isEmpty = false := by
    cases keywords with
    | nil => exact absurd rfl hk
    | cons a l => rfl
  rw [filter_by_keywords, hne]
  simp only [Bool.false_eq_true, if_false, filter_by_keywords_loop_eq_filter, List.mem_filter]
  simp [matchesAnyKeyword, keywordHaystack]

theorem filter_by_keywords_mem_iff_witness :
    (["enchente"] ≠ ([] : List String)) ∧
    (c2Item ∈ filter_by_keywords [c2Item] ["enchente"] ↔
      c2Item ∈ [c2Item] ∧
      ((["enchente"].map strLower).any
        (fun kw => pyIn kw (strLower (c2Item.title ++ " " ++ c2Item.summary.getD "")))) = true) :=
  ⟨by decide, filter_by_keywords_mem_iff [c2Item] ["enchente"] c2Item (by decide)⟩

-- ---------------------------------------------------------------------
-- C4
-- ---------------------------------------------------------------------

def c4ItemA : NewsItem := { title := "A", url := "https://news.example/a", source := "s" }

def c4ItemB : NewsItem := { title := "B", url := "https://news.example/b", source := "s" }

def c4Fault : NewsItem → Bool := fun i => i.url == "https://news.example/a"

/-- C4 (counterexample): a persistence failure on the first candidate does
prevent the insertion of the subsequent good candidate. With a fault on
URL `a` and an empty store, saving `[a, b]` commits nothing and raises,
while saving `[b]` alone commits one row with URL `b`. -/
theorem save_news_items_error_blocks_rest_counterexample :
    save_news_items c4Fault [c4ItemA, c4ItemB] none none [] = ([], true) ∧
    dbUrlCount (save_news_items c4Fault [c4ItemA, c4ItemB] none none []).fst
      c4ItemB.url = 0 ∧
    dbUrlCount (save_news_items c4Fault [c4ItemB] none none []).fst c4ItemB.url = 1 := by
  decide

/-- C4 (amended): per candidate, `save_news_items` swallows exactly the
URL-uniqueness violation and surfaces everything else: a duplicate URL
leaves the loop running on the rest of the batch; any other persistence
error is re-raised to the caller at once, with that row rolled back and
the remaining candidates left unprocessed; an error-free fresh URL is
committed and the loop continues. -/
theorem save_news_items_error_surfaced (fault : NewsItem → Bool) (c : NewsItem)
    (rest : List NewsItem) (dc du : Option String) (db : List News)
    (hne : c.url ≠ "") :
    (dbHasUrl db c.url = true →
       save_news_items fault (c :: rest) dc du db = save_news_items fault rest dc du db) ∧
    (dbHasUrl db c.url = false → fault c = true →
       save_news_items fault (c :: rest) dc du db = (db, true)) ∧
    (dbHasUrl db c.url = false → fault c = false →
       save_news_items fault (c :: rest) dc du db =
         save_news_items fault rest dc du (db ++ [newsOfItem c dc du])) := by
  refine ⟨fun h1 => by simp [save_news_items, hne, h1],
          fun h1 h2 => by simp [save_news_items, hne, h1, h2],
          fun h1 h2 => by simp [save_news_items, hne, h1, h2]⟩

theorem save_news_items_error_surfaced_witness :
    (c4ItemA.url ≠ "") ∧
    ((dbHasUrl [] c4ItemA.url = true →
       save_news_items c4Fault [c4ItemA, c4ItemB] none none [] =
         save_news_items c4Fault [c4ItemB] none none []) ∧
     (dbHasUrl [] c4ItemA.url = false → c4Fault c4ItemA = true →
       save_news_items c4Fault [c4ItemA, c4ItemB] none none [] = ([], true)) ∧
     (dbHasUrl [] c4ItemA.url = false → c4Fault c4ItemA = false →
       save_news_items c4Fault [c4ItemA, c4ItemB] none none [] =
         save_news_items c4Fault [c4ItemB] none none ([] ++ [newsOfItem c4ItemA none none]))) :=
  ⟨by decide, save_news_items_error_surfaced c4Fault c4ItemA [c4ItemB] none none [] (by decide)⟩

-- ---------------------------------------------------------------------
-- C8
-- ---------------------------------------------------------------------

/-- C8: filtering with an empty active keyword list is the identity on the
candidate list (fail-open behavior of `_filter_by_keywords`). -/
theorem filter_by_keywords_empty_id (items : List NewsItem) :
    filter_by_keywords items [] = items := by
  simp [filter_by_keywords]

-- ---------------------------------------------------------------------
-- C3
-- ---------------------------------------------------------------------

/-- C3: for a national, region-enumerable source (G1, CNN Brasil, R7),
expansion with no region set emits the 27 per-region targets — exactly one
per UF code, hence pairwise distinct regions — and expansion with a
(non-empty) region set emits exactly the one target carrying it. -/
theorem expand_targets_national_fanout (m : MonitoredURL)
    (hm : isNationalMedia m.media = true) :
    (m.uf = none →
       expand_targets_for_monitored m =
         UF_CODES.map (fun code => ⟨m.media, m.url, some code, m.city⟩) ∧
       (expand_targets_for_monitored m).length = 27 ∧
       ((expand_targets_for_monitored m).map FetchTarget.uf).Nodup) ∧
    (optTruthy m.uf = true →
       expand_targets_for_monitored m = [⟨m.media, m.url, m.uf, m.city⟩]) := by
  constructor
  · intro h
    have he : expand_targets_for_monitored m =
        UF_CODES.map (fun code => ⟨m.media, m.url, some code, m.city⟩) := by
      simp [expand_targets_for_monitored, hm, h, optTruthy]
    refine ⟨he, ?_, ?_⟩
    · rw [he, List.length_map]
      rfl
    · rw [he, List.map_map]
      have hcomp : (FetchTarget.uf ∘ fun code =>
          (⟨m.media, m.url, some code, m.city⟩ : FetchTarget)) = some := rfl
      rw [hcomp]
      decide
  · intro h
    simp [expand_targets_for_monitored, hm, h]

def c3Source : MonitoredURL := ⟨"https://g1.globo.com/", "G1", none, none⟩

theorem expand_targets_national_fanout_witness :
    (isNationalMedia c3Source.media = true) ∧
    ((c3Source.uf = none →
       expand_targets_for_monitored c3Source =
         UF_CODES.map (fun code => ⟨c3Source.media, c3Source.url, some code, c3Source.city⟩) ∧
       (expand_targets_for_monitored c3Source).length = 27 ∧
       ((expand_targets_for_monitored c3Source).map FetchTarget.uf).Nodup) ∧
     (optTruthy c3Source.uf = true →
       expand_targets_for_monitored c3Source =
         [⟨c3Source.media, c3Source.url, c3Source.uf, c3Source.city⟩])) :=
  ⟨by decide, expand_targets_national_fanout c3Source (by decide)⟩

-- ---------------------------------------------------------------------
-- C5
-- ---------------------------------------------------------------------

def c5Source : MonitoredURL := ⟨"https://example.com/12/cidade", "Jornal Local", none, none⟩

/-- C5 (counterexample): region inference is not restricted to 2-letter
codes. For the non-national source with URL path `/12/cidade` and no
region set, the first path segment is `"12"`, which contains no letter at
all, yet expansion infers the region `"12"` — the code only checks that
the segment has exactly two characters. -/
theorem expand_infer_not_letters_counterexample :
    expand_targets_for_monitored c5Source =
      [⟨"Jornal Local", "https://example.com/12/cidade", some "12", none⟩] ∧
    first_path_segment "https://example.com/12/cidade" = "12" ∧
    "12".data.all Char.isAlpha = false := by decide

/-- C5 (amended): a non-national source with no region set expands to
exactly one target whose region is `infer_uf_from_url` of its URL, and
inference succeeds exactly when the URL path's first segment has exactly
two characters (of any kind), returning that segment uppercased. -/
theorem expand_targets_infer_two_char (m : MonitoredURL)
    (hm : isNationalMedia m.media = false) (hu : optTruthy m.uf = false) :
    expand_targets_for_monitored m =
      [⟨m.media, m.url, infer_uf_from_url m.url, m.city⟩] ∧
    infer_uf_from_url m.url =
      (if (first_path_segment m.url).length = 2
       then some (strUpper (first_path_segment m.url)) else none) := by
  constructor
  · simp [expand_targets_for_monitored, hm, hu]
  · unfold infer_uf_from_url first_path_segment
    by_cases h : strippedPath m.url = ""
    · rw [h]
      decide
    · simp [h]

def c5SourceSp : MonitoredURL := ⟨"https://jornal.example/sp/cidade", "Jornal Local", none, none⟩

theorem expand_targets_infer_two_char_witness :
    (isNationalMedia c5SourceSp.media = false ∧ optTruthy c5SourceSp.uf = false) ∧
    (expand_targets_for_monitored c5SourceSp =
       [⟨c5SourceSp.media, c5SourceSp.url, infer_uf_from_url c5SourceSp.url, c5SourceSp.city⟩] ∧
     infer_uf_from_url c5SourceSp.url =
       (if (first_path_segment c5SourceSp.url).length = 2
        then some (strUpper (first_path_segment c5SourceSp.url)) else none)) :=
  ⟨⟨by decide, by decide⟩,
   expand_targets_infer_two_char c5SourceSp (by decide) (by decide)⟩

-- ---------------------------------------------------------------------
-- C6
-- ---------------------------------------------------------------------

/-- C6: when the page fetch for the target URL fails with a Playwright
timeout or transport error, `G1Scraper.fetch_from_url` returns the empty
candidate list and no exception reaches its caller (the result is
`Except.ok`): `get_page_html` swallows the navigation error into an empty
document, and an empty document parses to no cards. -/
theorem g1_fetch_transport_failure_empty (net : String → FetchOutcome)
    (parse : String → List G1Card) (url : String) (uf : Option String) (limit : Nat)
    (hparse : parse "" = [])
    (hfail : net (g1_effective_url url uf) = .timeoutErr ∨
             net (g1_effective_url url uf) = .transportErr) :
    g1_fetch_from_url net parse url uf limit = .ok [] := by
  rcases hfail with h | h <;>
    simp [g1_fetch_from_url, get_page_html, h, hparse, g1_collect]

theorem g1_fetch_transport_failure_empty_witness :
    ((fun _ => ([] : List G1Card)) "" = [] ∧
     ((fun _ => FetchOutcome.timeoutErr)
        (g1_effective_url "https://g1.globo.com/" none) = .timeoutErr ∨
      (fun _ => FetchOutcome.timeoutErr)
        (g1_effective_url "https://g1.globo.com/" none) = .transportErr)) ∧
    g1_fetch_from_url (fun _ => .timeoutErr) (fun _ => [])
      "https://g1.globo.com/" none 100 = .ok [] :=
  ⟨⟨rfl, Or.inl rfl⟩,
   g1_fetch_transport_failure_empty (fun _ => .timeoutErr) (fun _ => [])
     "https://g1.globo.com/" none 100 rfl (Or.inl rfl)⟩

-- ---------------------------------------------------------------------
-- C7
-- ---------------------------------------------------------------------

/-- C7 (counterexample): an invocation of the cycle with zero active
monitored sources returns early, before the export sink is invoked: the
export is skipped, so not every invocation exports. -/
theorem run_monitor_cycle_no_sources_counterexample :
    (run_monitor_cycle [] ["chuva"] (fun _ => .items []) (fun _ => false)
        false []).exportInvoked = false := by rfl

/-- C7 (amended): every cycle invocation that finds at least one active
monitored source invokes the export sink after all targets have been
processed, whatever the per-target outcomes and whether or not the export
itself fails, and the cycle never raises to its caller. -/
theorem run_monitor_cycle_export_invoked (monitored : List MonitoredURL)
    (keywords : List String) (fetch : FetchTarget → TargetOutcome)
    (fault : NewsItem → Bool) (exportFails : Bool) (db : List News)
    (h : monitored ≠ []) :
    (run_monitor_cycle monitored keywords fetch fault exportFails db).exportInvoked = true ∧
    (run_monitor_cycle monitored keywords fetch fault exportFails db).raised = false := by
  have he : monitored.isEmpty = false := by
    cases monitored with
    | nil => exact absurd rfl h
    | cons a l => rfl
  exact ⟨by simp [run_monitor_cycle, he], by simp [run_monitor_cycle, he]⟩

def c7Source : MonitoredURL := ⟨"https://g1.globo.com/", "G1", some "SP", none⟩

theorem run_monitor_cycle_export_invoked_witness :
    ([c7Source] ≠ ([] : List MonitoredURL)) ∧
    ((run_monitor_cycle [c7Source] [] (fun _ => .items []) (fun _ => false)
        true []).exportInvoked = true ∧
     (run_monitor_cycle [c7Source] [] (fun _ => .items []) (fun _ => false)
        true []).raised = false) :=
  ⟨by decide,
   run_monitor_cycle_export_invoked [c7Source] [] (fun _ => .items [])
     (fun _ => false) true [] (by decide)⟩

-- ---------------------------------------------------------------------
-- C10
-- ---------------------------------------------------------------------

/-- C10: target expansion always returns at least one target, and every
returned target carries the source's media, URL and locality unchanged —
only the region field is synthesized (fan-out) or inferred. -/
theorem expand_targets_nonempty_preserves_fields (m : MonitoredURL) :
    1 ≤ (expand_targets_for_monitored m).length ∧
    ((expand_targets_for_monitored m).all
      (fun t => t.media == m.media && t.url == m.url && t.city == m.city)) = true := by
  by_cases h1 : isNationalMedia m.media = true
  · by_cases h2 : optTruthy m.uf = true
    · simp [expand_targets_for_monitored, h1, h2]
    · have he : expand_targets_for_monitored m =
          UF_CODES.map (fun code => ⟨m.media, m.url, some code, m.city⟩) := by
        simp [expand_targets_for_monitored, h1, h2]
      rw [he]
      constructor
      · rw [List.length_map]
        decide
      · apply List.all_eq_true.mpr
        intro x hx
        obtain ⟨code, _, rfl⟩ := List.mem_map.mp hx
        simp
  · simp [expand_targets_for_monitored, h1]

-- ---------------------------------------------------------------------
-- C9: extraction loops keep at most `limit` items with pairwise distinct URLs
-- ---------------------------------------------------------------------

/-- Appending an item with a fresh URL preserves distinctness of the
collected URLs. -/
theorem nodup_map_url_append (items : List NewsItem) (x : NewsItem)
    (h1 : (items.map NewsItem.url).Nodup) (hx : x.url ∉ items.map NewsItem.url) :
    ((items ++ [x]).map NewsItem.url).Nodup := by
  rw [List.map_append]
  simp only [List.map_cons, List.map_nil]
  rw [List.nodup_middle]
  simp [List.nodup_cons, h1, hx]

/-- Extending the seen set with the appended item's URL keeps the loop
invariant that every collected URL has been seen. -/
theorem seen_invariant_extend (seen : List String) (link : String)
    (items : List NewsItem) (x : NewsItem)
    (h2 : ∀ i ∈ items, seen.contains i.url = true) (hx : x.url = link) :
    ∀ i ∈ items ++ [x], (link :: seen).contains i.url = true := by
  intro i hi
  rcases List.mem_append.mp hi with hi | hi
  · simp only [List.contains_cons, Bool.or_eq_true]
    exact Or.inr (h2 i hi)
  · simp only [List.mem_singleton] at hi
    subst hi
    simp [List.contains_cons, hx]

/-- A growing seen set keeps the loop invariant. -/
theorem seen_invariant_mono (seen : List String) (link : String)
    (items : List NewsItem)
    (h2 : ∀ i ∈ items, seen.contains i.url = true) :
    ∀ i ∈ items, (link :: seen).contains i.url = true := by
  intro i hi
  simp only [List.contains_cons, Bool.or_eq_true]
  exact Or.inr (h2 i hi)

/-- The G1 card loop never grows past `limit` once below it. -/
theorem g1_collect_length_le (uf : Option String) (limit : Nat) :
    ∀ (cards : List G1Card) (seen : List String) (items : List NewsItem),
      items.length < limit → (g1_collect uf limit cards seen items).length ≤ limit := by
  intro cards
  induction cards with
  | nil =>
    intro seen items h
    simpa [g1_collect] using Nat.le_of_lt h
  | cons card rest ih =>
    intro seen items h
    obtain ⟨linkTag, summary⟩ := card
    cases linkTag with
    | none => simpa [g1_collect] using ih seen items h
    | some lt =>
      obtain ⟨href, text⟩ := lt
      cases href with
      | none => simpa [g1_collect] using ih seen items h
      | some link =>
        simp only [g1_collect]
        split
        · exact ih seen items h
        · split
          · exact ih _ items h
          · split
            · simp only [List.length_append, List.length_cons, List.length_nil]
              omega
            · rename_i hbrk
              apply ih
              simp only [List.length_append, List.length_cons, List.length_nil] at hbrk ⊢
              omega

/-- The G1 card loop collects pairwise distinct URLs: the seen set is
checked before every append and extended with every appended URL. -/
theorem g1_collect_urls_nodup (uf : Option String) (limit : Nat) :
    ∀ (cards : List G1Card) (seen : List String) (items : List NewsItem),
      (items.map NewsItem.url).Nodup →
      (∀ i ∈ items, seen.contains i.url = true) →
      ((g1_collect uf limit cards seen items).map NewsItem.url).Nodup := by
  intro cards
  induction cards with
  | nil =>
    intro seen items h1 _
    simpa [g1_collect] using h1
  | cons card rest ih =>
    intro seen items h1 h2
    obtain ⟨linkTag, summary⟩ := card
    cases linkTag with
    | none => simpa [g1_collect] using ih seen items h1 h2
    | some lt =>
      obtain ⟨href, text⟩ := lt
      cases href with
      | none => simpa [g1_collect] using ih seen items h1 h2
      | some link =>
        simp only [g1_collect]
        split
        · exact ih seen items h1 h2
        · rename_i hskip
          simp only [Bool.or_eq_true, decide_eq_true_eq, not_or] at hskip
          obtain ⟨hlink, hseen⟩ := hskip
          have hnotin : link ∉ items.map NewsItem.url := by
            intro hmem
            obtain ⟨i, hi, hiu⟩ := List.mem_map.mp hmem
            have hc := h2 i hi
            rw [hiu] at hc
            exact hseen hc
          split
          · exact ih (link :: seen) items h1 (seen_invariant_mono seen link items h2)
          · split
            · exact nodup_map_url_append items _ h1 hnotin
            · exact ih (link :: seen) _
                (nodup_map_url_append items _ h1 hnotin)
                (seen_invariant_extend seen link items _ h2 rfl)

/-- The R7 node loop never grows past `limit` once below it. -/
theorem r7_collect_length_le (uf : Option String) (limit : Nat) :
    ∀ (nodes : List R7Node) (seen : List String) (items : List NewsItem),
      items.length < limit → (r7_collect uf limit nodes seen items).length ≤ limit := by
  intro nodes
  induction nodes with
  | nil =>
    intro seen items h
    simpa [r7_collect] using Nat.le_of_lt h
  | cons node rest ih =>
    intro seen items h
    obtain ⟨anchor, titleAttr, text⟩ := node
    cases anchor with
    | none => simpa [r7_collect] using ih seen items h
    | some a =>
      simp only [r7_collect]
      split
      · exact ih seen items h
      · split
        · exact ih seen items h
        · split
          · exact ih seen items h
          · split
            · exact ih seen items h
            · split
              · exact ih seen items h
              · split
                · simp only [List.length_append, List.length_cons, List.length_nil]
                  omega
                · rename_i hbrk
                  apply ih
                  simp only [List.length_append, List.length_cons, List.length_nil] at hbrk ⊢
                  omega

/-- The R7 node loop collects pairwise distinct URLs. -/
theorem r7_collect_urls_nodup (uf : Option String) (limit : Nat) :
    ∀ (nodes : List R7Node) (seen : List String) (items : List NewsItem),
      (items.map NewsItem.url).Nodup →
      (∀ i ∈ items, seen.contains i.url = true) →
      ((r7_collect uf limit nodes seen items).map NewsItem.url).Nodup := by
  intro nodes
  induction nodes with
  | nil =>
    intro seen items h1 _
    simpa [r7_collect] using h1
  | cons node rest ih =>
    intro seen items h1 h2
    obtain ⟨anchor, titleAttr, text⟩ := node
    cases anchor with
    | none => simpa [r7_collect] using ih seen items h1 h2
    | some a =>
      simp only [r7_collect]
      split
      · exact ih seen items h1 h2
      · split
        · exact ih seen items h1 h2
        · rename_i hdom hseenb
          split
          · exact ih seen items h1 h2
          · rename_i hseen
            have hnotin : r7_normalize_url a.href ∉ items.map NewsItem.url := by
              intro hmem
              obtain ⟨i, hi, hiu⟩ := List.mem_map.mp hmem
              have hc := h2 i hi
              rw [hiu] at hc
              exact hseen hc
            split
            · exact ih seen items h1 h2
            · split
              · exact ih seen items h1 h2
              · split
                · exact nodup_map_url_append items _ h1 hnotin
                · exact ih (r7_normalize_url a.href :: seen) _
                    (nodup_map_url_append items _ h1 hnotin)
                    (seen_invariant_extend seen (r7_normalize_url a.href) items _ h2 rfl)

/-- The CNN anchor loop never grows past `limit` once below it. -/
theorem cnn_collect_length_le (uf : Option String) (limit : Nat) :
    ∀ (anchors : List CNNAnchor) (seen : List String) (items : List NewsItem),
      items.length < limit → (cnn_collect uf limit anchors seen items).length ≤ limit := by
  intro anchors
  induction anchors with
  | nil =>
    intro seen items h
    simpa [cnn_collect] using Nat.le_of_lt h
  | cons a rest ih =>
    intro seen items h
    obtain ⟨href, text⟩ := a
    cases href with
    | none => simpa [cnn_collect] using ih seen items h
    | some link =>
      simp only [cnn_collect]
      split
      · exact ih seen items h
      · split
        · exact ih seen items h
        · split
          · exact ih seen items h
          · split
            · simp only [List.length_append, List.length_cons, List.length_nil]
              omega
            · rename_i hbrk
              apply ih
              simp only [List.length_append, List.length_cons, List.length_nil] at hbrk ⊢
              omega

/-- The CNN anchor loop collects pairwise distinct URLs. -/
theorem cnn_collect_urls_nodup (uf : Option String) (limit : Nat) :
    ∀ (anchors : List CNNAnchor) (seen : List String) (items : List NewsItem),
      (items.map NewsItem.url).Nodup →
      (∀ i ∈ items, seen.contains i.url = true) →
      ((cnn_collect uf limit anchors seen items).map NewsItem.url).Nodup := by
  intro anchors
  induction anchors with
  | nil =>
    intro seen items h1 _
    simpa [cnn_collect] using h1
  | cons a rest ih =>
    intro seen items h1 h2
    obtain ⟨href, text⟩ := a
    cases href with
    | none => simpa [cnn_collect] using ih seen items h1 h2
    | some link =>
      simp only [cnn_collect]
      split
      · exact ih seen items h1 h2
      · rename_i hskip
        simp only [Bool.or_eq_true, decide_eq_true_eq, not_or] at hskip
        obtain ⟨hlink, hseen⟩ := hskip
        have hnotin : link ∉ items.map NewsItem.url := by
          intro hmem
          obtain ⟨i, hi, hiu⟩ := List.mem_map.mp hmem
          have hc := h2 i hi
          rw [hiu] at hc
          exact hseen hc
        split
        · exact ih seen items h1 h2
        · split
          · exact ih seen items h1 h2
          · split
            · exact nodup_map_url_append items _ h1 hnotin
            · exact ih (link :: seen) _
                (nodup_map_url_append items _ h1 hnotin)
                (seen_invariant_extend seen link items _ h2 rfl)

def c9Card : G1Card := ⟨some ⟨some "https://g1.globo.com/noticia-x", "Titulo"⟩, none⟩

/-- C9 (counterexample): `limit` is not an upper bound for every limit
value. The loops append first and only then test `len(items) >= limit`,
so with `limit = 0` a page with one valid card still yields one candidate
— `G1Scraper.fetch_from_url` with limit 0 returns a 1-element list. -/
theorem g1_fetch_limit_zero_counterexample :
    g1_fetch_from_url (fun _ => .ok "page") (fun _ => [c9Card])
        "https://g1.globo.com/ac" none 0 =
      .ok [{ title := "Titulo", url := "https://g1.globo.com/noticia-x",
             source := "G1" }] ∧
    (g1_collect none 0 [c9Card] [] []).length = 1 := by
  constructor
  · rfl
  · rfl

/-- C9 (amended): for every fetched page, each of the three extraction
loops (G1, R7, CNN Brasil) returns at most `limit` candidates whenever
`limit` is at least 1, and for every limit value the returned candidates
have pairwise distinct URLs (repeated URLs within a page are deduplicated
via the seen set). -/
theorem collect_loops_limit_and_nodup (limit : Nat) (uf : Option String)
    (g1cards : List G1Card) (r7nodes : List R7Node) (cnnAnchors : List CNNAnchor) :
    ((1 ≤ limit → (g1_collect uf limit g1cards [] []).length ≤ limit) ∧
     ((g1_collect uf limit g1cards [] []).map NewsItem.url).Nodup) ∧
    ((1 ≤ limit → (r7_collect uf limit r7nodes [] []).length ≤ limit) ∧
     ((r7_collect uf limit r7nodes [] []).map NewsItem.url).Nodup) ∧
    ((1 ≤ limit → (cnn_collect uf limit cnnAnchors [] []).length ≤ limit) ∧
     ((cnn_collect uf limit cnnAnchors [] []).map NewsItem.url).Nodup) := by
  refine ⟨⟨?_, ?_⟩, ⟨?_, ?_⟩, ⟨?_, ?_⟩⟩
  · exact fun h => g1_collect_length_le uf limit g1cards [] [] (by simpa using h)
  · exact g1_collect_urls_nodup uf limit g1cards [] [] (by simp) (by simp)
  · exact fun h => r7_collect_length_le uf limit r7nodes [] [] (by simpa using h)
  · exact r7_collect_urls_nodup uf limit r7nodes [] [] (by simp) (by simp)
  · exact fun h => cnn_collect_length_le uf limit cnnAnchors [] [] (by simpa using h)
  · exact cnn_collect_urls_nodup uf limit cnnAnchors [] [] (by simp) (by simp)

def c9CardDup : G1Card := ⟨some ⟨some "https://g1.globo.com/noticia-x", "Outro titulo"⟩, none⟩

theorem collect_loops_limit_and_nodup_witness :
    (((1 ≤ 1 → (g1_collect none 1 [c9Card, c9CardDup] [] []).length ≤ 1) ∧
      ((g1_collect none 1 [c9Card, c9CardDup] [] []).map NewsItem.url).Nodup) ∧
     ((1 ≤ 1 → (r7_collect none 1 [] [] []).length ≤ 1) ∧
      ((r7_collect none 1 [] [] []).map NewsItem.url).Nodup) ∧
     ((1 ≤ 1 → (cnn_collect none 1 [] [] []).length ≤ 1) ∧
      ((cnn_collect none 1 [] [] []).map NewsItem.url).Nodup)) ∧
    (((g1_collect none 0 [c9Card, c9CardDup] [] []).map NewsItem.url).Nodup ∧
     ((r7_collect none 0 [] [] []).map NewsItem.url).Nodup ∧
     ((cnn_collect none 0 [] [] []).map NewsItem.url).Nodup) :=
  ⟨collect_loops_limit_and_nodup 1 none [c9Card, c9CardDup] [] [],
   ⟨(collect_loops_limit_and_nodup 0 none [c9Card, c9CardDup] [] []).1.2,
    (collect_loops_limit_and_nodup 0 none [c9Card, c9CardDup] [] []).2.1.2,
    (collect_loops_limit_and_nodup 0 none [c9Card, c9CardDup] [] []).2.2.2⟩⟩

end Scct
